import Mathlib

/-!
# Verification of the StreamMint client's real-time multiplexing core

A shallow embedding of the repository's real-time channel manager
(`src/services/pulse.service.ts`, class `PulseService`), its token signer
(`src/services/service.ts`, `BaseService.generateToken` together with
`src/services/crypto.service.ts`, `CryptoService`), and the domain services
that publish events over the manager (`message.service.ts`,
`participant.service.ts`, `channel.service.ts`).

JavaScript strings are modelled as lists of UTF-16 code units
(`JStr := List Nat`); JavaScript objects whose values are strings are
modelled as association lists (`JRecord`).  All machine arithmetic that the
source performs with JavaScript 32-bit operators is modelled on `Nat` with
explicit reductions modulo `2 ^ 32`.
-/

namespace StreamMint

/-- JavaScript string: a list of UTF-16 code units. -/
abbrev JStr := List Nat

/-- Code units of an ASCII Lean string literal. -/
def codes (s : String) : JStr := s.toList.map Char.toNat

/-- A flat JavaScript object with string values, in property order. -/
abbrev JRecord := List (String × String)

/-- JavaScript object-spread update `{...d, k: v}`: if `k` is already a
property of `d` its value is replaced in place, otherwise `(k, v)` is
appended at the end. -/
def jsSpreadSet (d : JRecord) (k v : String) : JRecord :=
  if (d.map Prod.fst).contains k then
    d.map (fun kv => if kv.1 = k then (k, v) else kv)
  else
    d ++ [(k, v)]

/-! ## Realtime Channel Manager (`PulseService`) -/

/-- A registered listener (`PulseEventListener`): its event name and its
handler, identified by a numeric handler id (handler functions are compared
by reference identity in the source; the id models that identity). -/
structure Listener where
  event : String
  fn : Nat
deriving DecidableEq, Repr

/-- WebSocket `readyState` values used by the source. -/
inductive WsReady where
  | connecting
  | opened
  | closed
deriving DecidableEq, Repr

/-- A physical WebSocket: its creation index and its ready state. -/
structure WSocket where
  id : Nat
  ready : WsReady
deriving DecidableEq, Repr

/-- The mutable fields of one `PulseService` instance, plus the ghost
counter `opened` counting how many physical WebSockets have been
constructed (`new WebSocket(...)`) over the instance's lifetime. -/
structure Pulse where
  clientID : String
  listeners : List Listener
  ws : Option WSocket
  connectionPromise : Option Nat
  userId : Option String
  nextSock : Nat
  opened : Nat
deriving DecidableEq, Repr

/-- The state of a freshly constructed `PulseService` (the constructor does
not connect). -/
def initPulse (clientID : String) : Pulse :=
  { clientID := clientID, listeners := [], ws := none,
    connectionPromise := none, userId := none, nextSock := 0, opened := 0 }

/-- `PulseService.connect(userId)`: stores the user id, constructs a new
physical WebSocket unconditionally, and returns the promise of the attempt
(identified by the socket's creation index).  The source never consults
`connectionPromise` here. -/
def connect (s : Pulse) (userId : Option String) : Pulse × Nat :=
  ({ s with
      userId := userId,
      ws := some ⟨s.nextSock, WsReady.connecting⟩,
      nextSock := s.nextSock + 1,
      opened := s.opened + 1 },
   s.nextSock)

/-- Result of `ensureConnection`: either the socket was already open and the
call resolves immediately, or a (new or shared) pending connection promise
is returned. -/
inductive ConnOutcome where
  | alreadyOpen
  | pending (pid : Nat)
deriving DecidableEq, Repr

/-- `PulseService.ensureConnection(userId)`: resolves immediately when the
socket is open; returns the stored `connectionPromise` when one is pending;
otherwise calls `connect` and stores its promise. -/
def ensureConnection (s : Pulse) (userId : Option String) :
    Pulse × ConnOutcome :=
  if (s.ws.map WSocket.ready) = some WsReady.opened then
    (s, ConnOutcome.alreadyOpen)
  else
    match s.connectionPromise with
    | some p => (s, ConnOutcome.pending p)
    | none =>
        let r := connect s userId
        ({ r.1 with connectionPromise := some r.2 }, ConnOutcome.pending r.2)

/-- The `ws.onopen` handler: clears `connectionPromise`, and the socket's
`readyState` becomes open. -/
def onopen (s : Pulse) : Pulse :=
  { s with
      ws := s.ws.map (fun w => { w with ready := WsReady.opened }),
      connectionPromise := none }

/-- `PulseService.on(event, listener)`: adds a fresh registration object to
the `Set` (object identity makes every `add` insert). -/
def onListen (s : Pulse) (event : String) (fn : Nat) : Pulse :=
  { s with listeners := s.listeners ++ [⟨event, fn⟩] }

/-- An inbound/outbound wire envelope `{event_type, data, sender_id}`. -/
structure Envelope where
  event_type : String
  data : JRecord
  sender_id : String
deriving DecidableEq, Repr

/-- The `listeners.forEach` loop in the `onmessage` handler, run inside the
surrounding `try`: each listener whose `event` matches is invoked in
registration order; if an invoked handler throws (`throws l.fn = true`) the
exception aborts the iteration and is caught by the surrounding `catch`.
Returns the ids of the handlers that were invoked and whether an exception
was caught (and logged). -/
def forEachDispatch (throws : Nat → Bool) (eventType : String) :
    List Listener → List Nat × Bool
  | [] => ([], false)
  | l :: rest =>
    if l.event = eventType then
      if throws l.fn then ([l.fn], true)
      else
        let r := forEachDispatch throws eventType rest
        (l.fn :: r.1, r.2)
    else forEachDispatch throws eventType rest

/-- The `ws.onmessage` handler applied to a successfully parsed envelope:
envelopes whose `sender_id` equals the instance's own `clientID` are
discarded before dispatch; otherwise the listeners are iterated as in
`forEachDispatch`.  Returns invoked handler ids and whether a handler
exception was caught. -/
def onmessage (throws : Nat → Bool) (s : Pulse) (m : Envelope) :
    List Nat × Bool :=
  if m.sender_id = s.clientID then ([], false)
  else forEachDispatch throws m.event_type s.listeners

/-- The payload `data` built by `emit`: `this.userId ? {...data, userId:
this.userId} : data`.  The condition is JavaScript truthiness, under which
both `undefined` and the empty string are falsy: a stored empty-string user
id leaves the data map unmodified. -/
def emitData (userId : Option String) (data : JRecord) : JRecord :=
  match userId with
  | some u => if u = "" then data else jsSpreadSet data "userId" u
  | none => data

/-- `PulseService.emit(event, data)`: awaits `ensureConnection(this.userId)`
(implicitly connecting with the stored — possibly absent — user id), then
builds and sends the outbound envelope.  Returns the post-`ensureConnection`
state, the connection outcome awaited, and the envelope that is sent once
the connection is open. -/
def emit (s : Pulse) (event : String) (data : JRecord) :
    Pulse × ConnOutcome × Envelope :=
  ((ensureConnection s s.userId).1, (ensureConnection s s.userId).2,
   ⟨event, emitData (ensureConnection s s.userId).1.userId data, s.clientID⟩)

/-! ## Domain services

Each mutation method performs an HTTP call via the gateway and then, when it
holds a Pulse reference (`if (this.pulse)`), calls `this.pulse.emit(...)`.
The HTTP transport is external: the server's response entity is a parameter
of the embedding, and the produced side effects — HTTP calls issued and
`pulse.emit` calls made — are returned explicitly.  A domain entity is
modelled as a flat `JRecord`. -/

/-- An HTTP request issued to the gateway. -/
structure HttpCall where
  method : String
  path : String
  body : JRecord
deriving DecidableEq, Repr

/-- One `pulse.emit(name, payload)` call made by a service. -/
structure EmitCall where
  event : String
  payload : JRecord
deriving DecidableEq, Repr

/-- The outcome of a successful service mutation: the HTTP calls issued, the
`pulse.emit` calls made, and the value returned to the caller. -/
structure SvcOutcome where
  http : List HttpCall
  emits : List EmitCall
  result : JRecord
deriving DecidableEq, Repr

/-- `MessageService.createMessage(args)`: posts to
`/v1/project/messages/<channelId>` and, if a Pulse reference was supplied,
emits exactly one `message_create` with the server's entity; returns the
entity.  `entity` is the server's `data.data` response. -/
def createMessage (hasPulse : Bool) (channelId : String) (args : JRecord)
    (entity : JRecord) : SvcOutcome :=
  { http := [⟨"POST", "/v1/project/messages/" ++ channelId, args⟩],
    emits := if hasPulse then [⟨"message_create", entity⟩] else [],
    result := entity }

/-- `MessageService.updateMessage(channelId, message)`: puts to
`/v1/project/messages/<channelId>/<message.id>` and, if a Pulse reference
was supplied, emits exactly one `message_update` with the server's entity;
returns the entity. -/
def updateMessage (hasPulse : Bool) (channelId messageId : String)
    (message : JRecord) (entity : JRecord) : SvcOutcome :=
  { http := [⟨"PUT", "/v1/project/messages/" ++ channelId ++ "/" ++ messageId,
             message⟩],
    emits := if hasPulse then [⟨"message_update", entity⟩] else [],
    result := entity }

/-- `MessageService.deleteMessage(channelId, messageId)`: deletes
`/v1/project/messages/<channelId>/<messageId>` and, if a Pulse reference was
supplied, emits one `message_delete` whose payload is
`{ id: messageId, channelId }`. -/
def deleteMessage (hasPulse : Bool) (channelId messageId : String) :
    SvcOutcome :=
  { http := [⟨"DELETE",
             "/v1/project/messages/" ++ channelId ++ "/" ++ messageId, []⟩],
    emits := if hasPulse then
               [⟨"message_delete", [("id", messageId), ("channelId", channelId)]⟩]
             else [],
    result := [] }

/-- `UserService.createUser(user)`: posts to `/v1/project/users` and, if a
Pulse reference was supplied, emits exactly one `user_create` with the
server's entity; returns the entity. -/
def createUser (hasPulse : Bool) (user : JRecord) (entity : JRecord) :
    SvcOutcome :=
  { http := [⟨"POST", "/v1/project/users", user⟩],
    emits := if hasPulse then [⟨"user_create", entity⟩] else [],
    result := entity }

/-- `UserService.updateUser(userID, user)`: puts to
`/v1/project/users/<userID>` and, if a Pulse reference was supplied, emits
exactly one `user_update` with the server's entity; returns the entity. -/
def updateUser (hasPulse : Bool) (userID : String) (user entity : JRecord) :
    SvcOutcome :=
  { http := [⟨"PUT", "/v1/project/users/" ++ userID, user⟩],
    emits := if hasPulse then [⟨"user_update", entity⟩] else [],
    result := entity }

/-- `UserService.deleteUser(userID)`: deletes `/v1/project/users/<userID>`
and, if a Pulse reference was supplied, emits one `user_delete` with
payload `{ id: userID }`. -/
def deleteUser (hasPulse : Bool) (userID : String) : SvcOutcome :=
  { http := [⟨"DELETE", "/v1/project/users/" ++ userID, []⟩],
    emits := if hasPulse then [⟨"user_delete", [("id", userID)]⟩] else [],
    result := [] }

/-- `FileService.uploadFile(files, extra)` (the Pulse-holding variant of
`file.service.ts`): posts the multipart form to `/v1/project/uploads`
(`formData` stands for the assembled body, whose construction is not
modelled) and, if a Pulse reference was supplied, emits exactly one
`file_upload` — note the name: not `file_create` — with the server's
entity; returns the entity. -/
def uploadFile (hasPulse : Bool) (formData : JRecord) (entity : JRecord) :
    SvcOutcome :=
  { http := [⟨"POST", "/v1/project/uploads", formData⟩],
    emits := if hasPulse then [⟨"file_upload", entity⟩] else [],
    result := entity }

/-- `FileService.deleteFile(fileID)`: deletes
`/v1/project/uploads/<fileID>` and, if a Pulse reference was supplied,
emits one `file_delete` with payload `{ id: fileID }`. -/
def deleteFile (hasPulse : Bool) (fileID : String) : SvcOutcome :=
  { http := [⟨"DELETE", "/v1/project/uploads/" ++ fileID, []⟩],
    emits := if hasPulse then [⟨"file_delete", [("id", fileID)]⟩] else [],
    result := [] }

/-- The fields of a `ParticipantService` relevant to publication: the
channel selection it reads from its owning `ChannelService`, and whether its
constructor's `pulse` argument was supplied (`this.pulse` truthiness). -/
structure ParticipantSvc where
  channelID : Option String
  hasPulse : Bool
deriving DecidableEq, Repr

/-- The fields of a `ChannelService`: its current channel selection and its
nested `ParticipantService`.  `ChannelService` itself holds no Pulse
reference. -/
structure ChannelSvc where
  channelID : Option String
  participants : ParticipantSvc
deriving DecidableEq, Repr

/-- The `ChannelService` constructor: `new ParticipantService(baseURL,
secretID, secretKey, this)` — the fifth (`pulse`) argument is not passed, so
the nested service's `this.pulse` is `undefined`. -/
def mkChannelService : ChannelSvc :=
  { channelID := none, participants := { channelID := none, hasPulse := false } }

/-- `ChannelService.connect(channelID)`: pure local state, records the
selection (which the nested participant service reads through its channel
reference). -/
def channelConnect (c : ChannelSvc) (channelID : String) : ChannelSvc :=
  { c with
      channelID := some channelID,
      participants := { c.participants with channelID := some channelID } }

/-- `ChannelService.createChannel(data)`: posts to `/v1/project/channels`
and returns the server entity; the service holds no Pulse reference and
publishes nothing. -/
def createChannel (data : JRecord) (entity : JRecord) : SvcOutcome :=
  { http := [⟨"POST", "/v1/project/channels", data⟩],
    emits := [],
    result := entity }

/-- `ChannelService.updateChannel(id, data)`: puts to
`/v1/project/channels/<id>`; publishes nothing. -/
def updateChannel (id : String) (data : JRecord) (entity : JRecord) :
    SvcOutcome :=
  { http := [⟨"PUT", "/v1/project/channels/" ++ id, data⟩],
    emits := [],
    result := entity }

/-- `ChannelService.deleteChannel(id)`: deletes `/v1/project/channels/<id>`;
publishes nothing. -/
def deleteChannel (id : String) : SvcOutcome :=
  { http := [⟨"DELETE", "/v1/project/channels/" ++ id, []⟩],
    emits := [],
    result := [] }

/-- `ParticipantService.addParticipant(participant)`: throws a usage error
when no channel is selected; otherwise posts the participant and, if
`this.pulse` is set, emits one `participant_create` with the submitted
participant. -/
def addParticipant (svc : ParticipantSvc) (participant : JRecord) :
    Except String SvcOutcome :=
  match svc.channelID with
  | none =>
      Except.error "Channel ID is not set. Please connect to a channel first."
  | some cid =>
      Except.ok
        { http := [⟨"POST", "/v1/project/channels/" ++ cid ++ "/participants",
                   participant⟩],
          emits := if svc.hasPulse then [⟨"participant_create", participant⟩]
                   else [],
          result := [] }

/-- `ParticipantService.removeParticipant(participantID)`: throws a usage
error when no channel is selected; otherwise issues one DELETE with the id
array and, if `this.pulse` is set, emits one `participant_delete` with
payload `{id}` per removed id (a `for...of` loop over the array). -/
def removeParticipant (svc : ParticipantSvc) (participantID : List String) :
    Except String SvcOutcome :=
  match svc.channelID with
  | none =>
      Except.error "Channel ID is not set. Please connect to a channel first."
  | some cid =>
      Except.ok
        { http := [⟨"DELETE", "/v1/project/channels/" ++ cid ++ "/participants",
                   participantID.map (fun id => ("data", id))⟩],
          emits := if svc.hasPulse then
                     participantID.map (fun id =>
                       ⟨"participant_delete", [("id", id)]⟩)
                   else [],
          result := [] }

/-- `ParticipantService.updateParticipant(participant)`: throws a usage
error when no channel is selected; otherwise puts the participant and, if
`this.pulse` is set, emits one `participant_update` with the submitted
participant. -/
def updateParticipant (svc : ParticipantSvc) (participant : JRecord) :
    Except String SvcOutcome :=
  match svc.channelID with
  | none =>
      Except.error "Channel ID is not set. Please connect to a channel first."
  | some cid =>
      Except.ok
        { http := [⟨"PUT", "/v1/project/channels/" ++ cid ++ "/participants",
                   participant⟩],
          emits := if svc.hasPulse then [⟨"participant_update", participant⟩]
                   else [],
          result := [] }

/-! ## `CryptoService`

JavaScript bitwise operators coerce their operands to 32-bit integers and
take shift counts modulo 32; values are modelled as their residues modulo
`2 ^ 32` (a signed 32-bit value and its unsigned residue have the same bit
pattern, and every use in the source either masks with `& 0xffffffff`,
shifts with `>>> 0`, or only extracts low-order bits). -/

/-- Reduction to the 32-bit residue (`ToUint32`). -/
def mask32 (x : Nat) : Nat := x % 4294967296

/-- JavaScript `x >>> n`: unsigned 32-bit shift, count taken mod 32. -/
def jsShrU (x n : Nat) : Nat := mask32 x >>> (n % 32)

/-- JavaScript `~x` on a 32-bit value. -/
def not32 (x : Nat) : Nat := mask32 x ^^^ 4294967295

/-- `CryptoService.stringToBytes`: UTF-8-encodes each UTF-16 code unit below
`0x10000` independently; the source has no branch for larger values, so
they contribute no bytes. -/
def stringToBytes : JStr → List Nat
  | [] => []
  | c :: rest =>
    (if c < 0x80 then [c]
     else if c < 0x800 then
       [0xc0 ||| (c >>> 6), 0x80 ||| (c &&& 0x3f)]
     else if c < 0x10000 then
       [0xe0 ||| (c >>> 12), 0x80 ||| ((c >>> 6) &&& 0x3f),
        0x80 ||| (c &&& 0x3f)]
     else []) ++ stringToBytes rest

/-- The base64 alphabet string of `CryptoService.base64Encode`. -/
def base64Chars : List Nat :=
  codes "ABCDEFGHIJKLMNOPQRSTUVWXYZabcdefghijklmnopqrstuvwxyz0123456789+/"

/-- `chars.charAt(i)` for the base64 alphabet (indices are always `& 63`,
hence in range). -/
def b64char (i : Nat) : Nat := base64Chars.getD i 0

/-- One iteration of the `while` loop of `CryptoService.base64Encode`: reads
up to three code units (missing ones read as `0`) and emits four characters
`chars.charAt((bitmap >> k) & 63)`.  The source guards the third and fourth
characters with `i - 2 < str.length` and `i - 1 < str.length`, but because
`i++` is only executed for positions actually read, `i` never exceeds the
length, both guards are always true, and the `'='` padding branches are
unreachable; the embedding emits the four alphabet characters directly. -/
def base64Chunk (a b c : Nat) : List Nat :=
  let bitmap := mask32 (a <<< 16) ||| (mask32 (b <<< 8) ||| mask32 c)
  [b64char ((bitmap >>> 18) &&& 63), b64char ((bitmap >>> 12) &&& 63),
   b64char ((bitmap >>> 6) &&& 63), b64char (bitmap &&& 63)]

/-- `CryptoService.base64Encode`, manual branch (the `btoa` branch delegates
to a host-environment function that is not part of the repository; the
repository's own encoder is embedded). -/
def base64Encode : List Nat → List Nat
  | [] => []
  | [a] => base64Chunk a 0 0
  | [a, b] => base64Chunk a b 0
  | a :: b :: c :: rest => base64Chunk a b c ++ base64Encode rest

/-- `CryptoService.base64UrlEncode`: `base64Encode` then
`.replace(/=/g, '').replace(/\+/g, '-').replace(/\//g, '_')`. -/
def base64UrlEncode (s : List Nat) : List Nat :=
  (((base64Encode s).filter (fun ch => ch != 61)).map
      (fun ch => if ch = 43 then 45 else ch)).map
    (fun ch => if ch = 47 then 95 else ch)

/-- `CryptoService.rightRotate`:
`((value >>> amount) | (value << (32 - amount))) >>> 0`. -/
def rightRotate (value amount : Nat) : Nat :=
  (mask32 value >>> amount) ||| mask32 (mask32 value <<< (32 - amount))

/-- The SHA-256 round constants `k` (the source lists them in hexadecimal;
the same 64 values are given here in decimal: 1116352408 = 0x428a2f98 and
so on through 3329325298 = 0xc67178f2). -/
def shaK : List Nat :=
  [1116352408, 1899447441, 3049323471, 3921009573, 961987163, 1508970993,
   2453635748, 2870763221, 3624381080, 310598401, 607225278, 1426881987,
   1925078388, 2162078206, 2614888103, 3248222580, 3835390401, 4022224774,
   264347078, 604807628, 770255983, 1249150122, 1555081692, 1996064986,
   2554220882, 2821834349, 2952996808, 3210313671, 3336571891, 3584528711,
   113926993, 338241895, 666307205, 773529912, 1294757372, 1396182291,
   1695183700, 1986661051, 2177026350, 2456956037, 2730485921, 2820302411,
   3259730800, 3345764771, 3516065817, 3600352804, 4094571909, 275423344,
   430227734, 506948616, 659060556, 883997877, 958139571, 1322822218,
   1537002063, 1747873779, 1955562222, 2024104815, 2227730452, 2361852424,
   2428436474, 2756734187, 3204031479, 3329325298]

/-- The eight 32-bit hash registers. -/
structure Hash8 where
  h0 : Nat
  h1 : Nat
  h2 : Nat
  h3 : Nat
  h4 : Nat
  h5 : Nat
  h6 : Nat
  h7 : Nat

/-- SHA-256 initial hash values `h0 … h7` (decimal renderings of the
source's hex literals `0x6a09e667 … 0x5be0cd19`). -/
def initHash : Hash8 :=
  ⟨1779033703, 3144134277, 1013904242, 2773480762,
   1359893119, 2600822924, 528734635, 1541459225⟩

/-- The zero-padding loop `while ((msgBytes.length % 64) !== 56)`: appends
at most 63 zero bytes, so 64 iterations of fuel always suffice. -/
def padZerosAux : Nat → List Nat → List Nat
  | 0, l => l
  | fuel + 1, l =>
    if l.length % 64 = 56 then l else padZerosAux fuel (l ++ [0])

/-- The eight length bytes `(bitLength >>> (i * 8)) & 0xff` for
`i = 7, …, 0`; JavaScript takes the shift count modulo 32, so the high four
bytes repeat the low four. -/
def lengthBytes (bitLength : Nat) : List Nat :=
  (List.range 8).reverse.map (fun i => jsShrU bitLength (i * 8) &&& 0xff)

/-- Message-schedule extension: `w[i] = (w[i-16] + s0 + w[i-7] + s1) &
0xffffffff` for `i = 16, …, 63`. -/
def wExtend (w0 : List Nat) : List Nat :=
  (List.range 48).foldl
    (fun w j =>
      let i := 16 + j
      let s0 := rightRotate (w.getD (i - 15) 0) 7 ^^^
                rightRotate (w.getD (i - 15) 0) 18 ^^^
                (mask32 (w.getD (i - 15) 0) >>> 3)
      let s1 := rightRotate (w.getD (i - 2) 0) 17 ^^^
                rightRotate (w.getD (i - 2) 0) 19 ^^^
                (mask32 (w.getD (i - 2) 0) >>> 10)
      w ++ [(w.getD (i - 16) 0 + s0 + w.getD (i - 7) 0 + s1) &&& 0xffffffff])
    w0

/-- Compression state: the working variables `a`–`h` as a `Hash8`. -/
def compress (w : List Nat) (hs : Hash8) : Hash8 :=
  (List.range 64).foldl
    (fun st i =>
      let S1 := rightRotate st.h4 6 ^^^ rightRotate st.h4 11 ^^^
                rightRotate st.h4 25
      let ch := (st.h4 &&& st.h5) ^^^ (not32 st.h4 &&& st.h6)
      let temp1 := (st.h7 + S1 + ch + shaK.getD i 0 + w.getD i 0) &&&
                   0xffffffff
      let S0 := rightRotate st.h0 2 ^^^ rightRotate st.h0 13 ^^^
                rightRotate st.h0 22
      let maj := (st.h0 &&& st.h1) ^^^ (st.h0 &&& st.h2) ^^^
                 (st.h1 &&& st.h2)
      let temp2 := (S0 + maj) &&& 0xffffffff
      ⟨(temp1 + temp2) &&& 0xffffffff, st.h0, st.h1, st.h2,
       (st.h3 + temp1) &&& 0xffffffff, st.h4, st.h5, st.h6⟩)
    hs

/-- One 512-bit chunk starting at byte offset `chunk`. -/
def processChunk (msgBytes : List Nat) (chunk : Nat) (hs : Hash8) : Hash8 :=
  let w0 := (List.range 16).foldl
    (fun w i =>
      w ++ [mask32 (msgBytes.getD (chunk + i * 4) 0 <<< 24) |||
            (mask32 (msgBytes.getD (chunk + i * 4 + 1) 0 <<< 16) |||
             (mask32 (msgBytes.getD (chunk + i * 4 + 2) 0 <<< 8) |||
              mask32 (msgBytes.getD (chunk + i * 4 + 3) 0)))]) []
  let w := wExtend w0
  let r := compress w hs
  ⟨(hs.h0 + r.h0) &&& 0xffffffff, (hs.h1 + r.h1) &&& 0xffffffff,
   (hs.h2 + r.h2) &&& 0xffffffff, (hs.h3 + r.h3) &&& 0xffffffff,
   (hs.h4 + r.h4) &&& 0xffffffff, (hs.h5 + r.h5) &&& 0xffffffff,
   (hs.h6 + r.h6) &&& 0xffffffff, (hs.h7 + r.h7) &&& 0xffffffff⟩

/-- `CryptoService.sha256`: preprocessing, chunk loop, and the final
32-byte digest list. -/
def sha256 (message : JStr) : List Nat :=
  let msgBytes0 := stringToBytes message
  let bitLength := msgBytes0.length * 8
  let padded := padZerosAux 64 (msgBytes0 ++ [0x80]) ++ lengthBytes bitLength
  let f := (List.range ((padded.length + 63) / 64)).foldl
    (fun hs blk => processChunk padded (64 * blk) hs) initHash
  [(mask32 f.h0 >>> 24) &&& 0xff, (mask32 f.h0 >>> 16) &&& 0xff,
   (mask32 f.h0 >>> 8) &&& 0xff, f.h0 &&& 0xff,
   (mask32 f.h1 >>> 24) &&& 0xff, (mask32 f.h1 >>> 16) &&& 0xff,
   (mask32 f.h1 >>> 8) &&& 0xff, f.h1 &&& 0xff,
   (mask32 f.h2 >>> 24) &&& 0xff, (mask32 f.h2 >>> 16) &&& 0xff,
   (mask32 f.h2 >>> 8) &&& 0xff, f.h2 &&& 0xff,
   (mask32 f.h3 >>> 24) &&& 0xff, (mask32 f.h3 >>> 16) &&& 0xff,
   (mask32 f.h3 >>> 8) &&& 0xff, f.h3 &&& 0xff,
   (mask32 f.h4 >>> 24) &&& 0xff, (mask32 f.h4 >>> 16) &&& 0xff,
   (mask32 f.h4 >>> 8) &&& 0xff, f.h4 &&& 0xff,
   (mask32 f.h5 >>> 24) &&& 0xff, (mask32 f.h5 >>> 16) &&& 0xff,
   (mask32 f.h5 >>> 8) &&& 0xff, f.h5 &&& 0xff,
   (mask32 f.h6 >>> 24) &&& 0xff, (mask32 f.h6 >>> 16) &&& 0xff,
   (mask32 f.h6 >>> 8) &&& 0xff, f.h6 &&& 0xff,
   (mask32 f.h7 >>> 24) &&& 0xff, (mask32 f.h7 >>> 16) &&& 0xff,
   (mask32 f.h7 >>> 8) &&& 0xff, f.h7 &&& 0xff]

/-- The key preparation of `CryptoService.hmacSha256`: keys longer than the
64-byte block are replaced by their hash, then zero-padded to 64 bytes
(`while (keyBuffer.length < 64) push(0)`). -/
def hmacKeyBuffer (key : JStr) : List Nat :=
  let keyBytes := stringToBytes key
  let keyBuffer := if keyBytes.length > 64 then sha256 key else keyBytes
  keyBuffer ++ List.replicate (64 - keyBuffer.length) 0

/-- `CryptoService.hmacSha256` up to (but not including) its final
base64url encoding: the raw 32-byte MAC.  `String.fromCharCode` turns the
padding bytes back into code units, which `sha256` re-encodes through
`stringToBytes`; concatenation of code-unit lists models the string
concatenations. -/
def hmacSha256Raw (key message : JStr) : List Nat :=
  let keyBuffer := hmacKeyBuffer key
  let innerPadding := keyBuffer.map (fun b => b ^^^ 0x36)
  let outerPadding := keyBuffer.map (fun b => b ^^^ 0x5c)
  let innerHash := sha256 (innerPadding ++ message)
  sha256 (outerPadding ++ innerHash)

/-- `CryptoService.hmacSha256`: the raw MAC, base64url-encoded. -/
def hmacSha256 (key message : JStr) : JStr :=
  base64UrlEncode (hmacSha256Raw key message)

/-! ## `BaseService.generateToken` -/

/-- Lowercase hexadecimal digit. -/
def hexDigit (n : Nat) : Nat := if n < 10 then 48 + n else 87 + n

/-- `JSON.stringify` escaping of one string code unit. -/
def jsonEscapeUnit (c : Nat) : List Nat :=
  if c = 34 then codes "\\\""
  else if c = 92 then codes "\\\\"
  else if c = 8 then codes "\\b"
  else if c = 9 then codes "\\t"
  else if c = 10 then codes "\\n"
  else if c = 12 then codes "\\f"
  else if c = 13 then codes "\\r"
  else if c < 32 then codes "\\u00" ++ [hexDigit (c / 16), hexDigit (c % 16)]
  else [c]

/-- `JSON.stringify` of a string value. -/
def jsonQuote (s : JStr) : JStr :=
  [34] ++ (s.map jsonEscapeUnit).flatten ++ [34]

/-- Decimal rendering of a JavaScript integer. -/
def intDec (i : Int) : JStr :=
  if i < 0 then codes ("-" ++ Nat.repr i.natAbs) else codes (Nat.repr i.natAbs)

/-- `JSON.stringify({typ: "JWT", alg: "HS256"})`. -/
def jsonHeaderStr : JStr :=
  codes "\x7b\"typ\":\"JWT\",\"alg\":\"HS256\"\x7d"

/-- `JSON.stringify({sub, iat, exp, jti: "jwt_nonce"})`; `iat` is the
current timestamp `Math.floor(Date.now() / 1000)` (a parameter of the
embedding) and `exp = iat + expiry`. -/
def jsonPayloadStr (sub : JStr) (iat expVal : Int) : JStr :=
  codes "\x7b\"sub\":" ++ jsonQuote sub ++ codes ",\"iat\":" ++ intDec iat ++
  codes ",\"exp\":" ++ intDec expVal ++ codes ",\"jti\":\"jwt_nonce\"\x7d"

/-- `encodedHeader` in `generateToken`. -/
def encHeader : JStr := base64UrlEncode jsonHeaderStr

/-- `encodedPayload` in `generateToken` at timestamp `now` (seconds). -/
def encPayload (secretID : JStr) (now : Nat) (expiry : Int) : JStr :=
  base64UrlEncode (jsonPayloadStr secretID (now : Int) ((now : Int) + expiry))

/-- The `tokenString` (`encodedHeader + "." + encodedPayload`) that is
signed; `46` is the code of `'.'`. -/
def signingInput (secretID : JStr) (now : Nat) (expiry : Int) : JStr :=
  encHeader ++ [46] ++ encPayload secretID now expiry

/-- `BaseService.generateToken(secretID, secretKey, expiry)` with the
timestamp made explicit: signs the token string with
`CryptoService.hmacSha256` (whose result is already base64url text) and
then base64url-encodes that signature once more before appending it. -/
def generateToken (secretID secretKey : JStr) (now : Nat) (expiry : Int) :
    JStr :=
  let tokenString := signingInput secretID now expiry
  let signature := hmacSha256 secretKey tokenString
  let encodedSignature := base64UrlEncode signature
  tokenString ++ [46] ++ encodedSignature

/-- The token as described by the specification sentence for the signer:
base64url-encoded header and payload, and a signature segment that is the
base64url encoding of the HMAC-SHA-256 (the raw MAC bytes) of
`header.payload` under the secret.  This definition follows the spec's
words and exists to be compared with `generateToken`. -/
def signSpecFormula (secretID secretKey : JStr) (now : Nat) (expiry : Int) :
    JStr :=
  let tokenString := signingInput secretID now expiry
  tokenString ++ [46] ++ base64UrlEncode (hmacSha256Raw secretKey tokenString)

/-- `"...".split('.')` on a code-unit list. -/
def splitDots (s : JStr) : List JStr :=
  match s with
  | [] => [[]]
  | c :: rest =>
    if c = 46 then [] :: splitDots rest
    else
      match splitDots rest with
      | [] => [[c]]
      | seg :: segs => (c :: seg) :: segs

/-! ## General lemmas -/

/-- Code of a character that is none of `'='`, `'+'`, `'/'`, `'.'`. -/
def urlSafeB (c : Nat) : Bool := c != 61 && c != 43 && c != 47 && c != 46

theorem b64char_and_mem (x : Nat) : b64char (x &&& 63) ∈ base64Chars := by
  have h64 : x &&& 63 < 64 :=
    Nat.lt_of_le_of_lt (Nat.and_le_right) (by norm_num)
  have : ∀ i < 64, base64Chars.getD i 0 ∈ base64Chars := by decide
  exact this _ h64

theorem mem_base64Chunk {c : Nat} (a b d : Nat) :
    c ∈ base64Chunk a b d → c ∈ base64Chars := by
  intro hc
  simp only [base64Chunk, List.mem_cons, List.not_mem_nil, or_false] at hc
  rcases hc with h | h | h | h <;> exact h ▸ b64char_and_mem _

theorem mem_base64Encode {c : Nat} :
    ∀ s : List Nat, c ∈ base64Encode s → c ∈ base64Chars
  | [] => by simp [base64Encode]
  | [a] => fun h => mem_base64Chunk a 0 0 (by simpa [base64Encode] using h)
  | [a, b] => fun h => mem_base64Chunk a b 0 (by simpa [base64Encode] using h)
  | a :: b :: d :: rest => fun h => by
      simp only [base64Encode, List.mem_append] at h
      rcases h with h | h
      · exact mem_base64Chunk a b d h
      · exact mem_base64Encode rest h

theorem base64Encode_filter61 (s : List Nat) :
    (base64Encode s).filter (fun ch => ch != 61) = base64Encode s := by
  rw [List.filter_eq_self]
  intro c hc
  have hmem := mem_base64Encode s hc
  have : ∀ x ∈ base64Chars, (x != 61) = true := by decide
  exact this c hmem

theorem base64Encode_length (s : List Nat) :
    (base64Encode s).length = 4 * ((s.length + 2) / 3) := by
  match s with
  | [] => rfl
  | [a] => simp [base64Encode, base64Chunk]
  | [a, b] => simp [base64Encode, base64Chunk]
  | a :: b :: d :: rest =>
      have ih := base64Encode_length rest
      simp only [base64Encode, List.length_append, base64Chunk,
        List.length_cons, List.length_nil] at *
      omega

theorem base64UrlEncode_length (s : List Nat) :
    (base64UrlEncode s).length = 4 * ((s.length + 2) / 3) := by
  unfold base64UrlEncode
  rw [List.length_map, List.length_map, base64Encode_filter61,
    base64Encode_length]

theorem base64UrlEncode_urlSafe (s : List Nat) :
    ∀ c ∈ base64UrlEncode s, urlSafeB c = true := by
  intro c hc
  unfold base64UrlEncode at hc
  rw [base64Encode_filter61] at hc
  simp only [List.mem_map] at hc
  obtain ⟨c1, ⟨c0, hc0, rfl⟩, rfl⟩ := hc
  have hmem := mem_base64Encode s hc0
  have key : ∀ x ∈ base64Chars,
      urlSafeB (if (if x = 43 then 45 else x) = 47 then 95
                else if x = 43 then 45 else x) = true := by decide
  exact key c0 hmem

theorem base64UrlEncode_noDot (s : List Nat) :
    ∀ c ∈ base64UrlEncode s, c ≠ 46 := by
  intro c hc
  have := base64UrlEncode_urlSafe s c hc
  simp only [urlSafeB, Bool.and_eq_true, bne_iff_ne, ne_eq] at this
  exact this.2

theorem sha256_length (m : JStr) : (sha256 m).length = 32 := rfl

theorem hmacSha256Raw_length (k m : JStr) :
    (hmacSha256Raw k m).length = 32 := sha256_length _

theorem hmacSha256_length (k m : JStr) : (hmacSha256 k m).length = 44 := by
  unfold hmacSha256
  rw [base64UrlEncode_length, hmacSha256Raw_length]

theorem splitDots_ne_nil (s : JStr) : splitDots s ≠ [] := by
  match s with
  | [] => simp [splitDots]
  | c :: rest =>
      unfold splitDots
      split
      · simp
      · cases h : splitDots rest <;> simp

theorem splitDots_dotFree (s : JStr) (h : ∀ c ∈ s, c ≠ 46) :
    splitDots s = [s] := by
  induction s with
  | nil => rfl
  | cons c rest ih =>
      have hc : c ≠ 46 := h c (by simp)
      have hrest := ih (fun x hx => h x (by simp [hx]))
      simp [splitDots, hc, hrest]

theorem splitDots_append (a b : JStr) (h : ∀ c ∈ a, c ≠ 46) :
    splitDots (a ++ 46 :: b) = a :: splitDots b := by
  induction a with
  | nil => simp [splitDots]
  | cons c rest ih =>
      have hc : c ≠ 46 := h c (by simp)
      have hrest := ih (fun x hx => h x (by simp [hx]))
      simp only [List.cons_append, splitDots, hc, if_false, List.append_eq]
      rw [hrest]

theorem encHeader_noDot : ∀ c ∈ encHeader, c ≠ 46 := by
  unfold encHeader
  exact base64UrlEncode_noDot _

theorem encPayload_noDot (sub : JStr) (now : Nat) (expiry : Int) :
    ∀ c ∈ encPayload sub now expiry, c ≠ 46 := by
  unfold encPayload
  exact base64UrlEncode_noDot _

/-- Splitting the produced token at the dots recovers the encoded header,
the encoded payload, and the doubly-encoded signature segment. -/
theorem token_split (secretID secretKey : JStr) (now : Nat) (expiry : Int) :
    splitDots (generateToken secretID secretKey now expiry) =
      [encHeader, encPayload secretID now expiry,
       base64UrlEncode (base64UrlEncode
         (hmacSha256Raw secretKey (signingInput secretID now expiry)))] := by
  have h1 : generateToken secretID secretKey now expiry =
      encHeader ++ 46 ::
        (encPayload secretID now expiry ++ 46 ::
          base64UrlEncode (base64UrlEncode
            (hmacSha256Raw secretKey (signingInput secretID now expiry)))) := by
    simp [generateToken, signingInput, hmacSha256, List.append_assoc]
  rw [h1, splitDots_append _ _ encHeader_noDot,
    splitDots_append _ _ (encPayload_noDot secretID now expiry),
    splitDots_dotFree _ (base64UrlEncode_noDot _)]

theorem forEachDispatch_no_throw (throws : Nat → Bool) (ev : String)
    (ls : List Listener) (h : ∀ l ∈ ls, l.event = ev → throws l.fn = false) :
    forEachDispatch throws ev ls =
      ((ls.filter (fun l => l.event == ev)).map Listener.fn, false) := by
  induction ls with
  | nil => rfl
  | cons l rest ih =>
      have hrest := ih (fun x hx he => h x (by simp [hx]) he)
      by_cases he : l.event = ev
      · have ht : throws l.fn = false := h l (by simp) he
        simp [forEachDispatch, he, ht, hrest, List.filter_cons]
      · simp [forEachDispatch, he, hrest, List.filter_cons]

theorem forEachDispatch_spec (throws : Nat → Bool) (ev : String)
    (ls : List Listener) :
    forEachDispatch throws ev ls =
      (((ls.filter (fun l => l.event == ev)).map
          Listener.fn).takeWhile (fun f => !throws f) ++
        (((ls.filter (fun l => l.event == ev)).map
            Listener.fn).dropWhile (fun f => !throws f)).take 1,
       ((ls.filter (fun l => l.event == ev)).map Listener.fn).any throws) := by
  induction ls with
  | nil => rfl
  | cons l rest ih =>
      by_cases he : l.event = ev
      · by_cases ht : throws l.fn
        · simp [forEachDispatch, he, ht, List.filter_cons]
        · simp [forEachDispatch, he, ht, ih, List.filter_cons]
      · simp [forEachDispatch, he, ih, List.filter_cons]

theorem ensureConnection_userId (s : Pulse) :
    ((ensureConnection s s.userId).1).userId = s.userId := by
  unfold ensureConnection
  split
  · rfl
  · split
    · rfl
    · rfl

theorem emit_envelope (s : Pulse) (ev : String) (d : JRecord) :
    (emit s ev d).2.2 = ⟨ev, emitData s.userId d, s.clientID⟩ := by
  unfold emit
  rw [ensureConnection_userId]

theorem lookup_map_replace_self (t : JRecord) (k v : String) :
    (t.map (fun kv => if kv.1 = k then (k, v) else kv)).lookup k =
      if k ∈ t.map Prod.fst then some v else none := by
  induction t with
  | nil => simp
  | cons a t ih =>
      obtain ⟨a1, a2⟩ := a
      by_cases hak : a1 = k
      · subst hak
        simp [List.lookup_cons]
      · simp only [List.map_cons, if_neg hak, List.lookup_cons,
          beq_false_of_ne (Ne.symm hak), ih]
        by_cases hkt : k ∈ List.map Prod.fst t
        · simp [hkt]
        · simp [hkt, (Ne.symm hak : k ≠ a1)]

theorem lookup_append_single (t : JRecord) (k v k' : String) :
    (t ++ [(k, v)]).lookup k' =
      ((t.lookup k').orElse (fun _ => ([(k, v)] : JRecord).lookup k')) := by
  induction t with
  | nil => simp
  | cons a t ih =>
      obtain ⟨a1, a2⟩ := a
      cases hbeq : (k' == a1) <;>
        simp [List.lookup_cons, hbeq, ih]

theorem lookup_map_replace_other (t : JRecord) (k v k' : String)
    (hne : k' ≠ k) :
    (t.map (fun kv => if kv.1 = k then (k, v) else kv)).lookup k' =
      t.lookup k' := by
  induction t with
  | nil => simp
  | cons a t ih =>
      obtain ⟨a1, a2⟩ := a
      by_cases hak : a1 = k
      · subst hak
        simp [List.lookup_cons, beq_false_of_ne hne, ih]
      · cases hbeq : (k' == a1) <;>
          simp [List.map_cons, if_neg hak, List.lookup_cons, hbeq, ih]

theorem lookup_jsSpreadSet_self (d : JRecord) (k v : String) :
    (jsSpreadSet d k v).lookup k = some v := by
  unfold jsSpreadSet
  split
  · next hct =>
      rw [lookup_map_replace_self]
      rw [List.elem_iff] at hct
      simp [hct]
  · next hct =>
      rw [List.elem_iff] at hct
      rw [lookup_append_single]
      have hnone : d.lookup k = none := by
        rw [List.lookup_eq_none_iff]
        intro p hp
        have : k ≠ p.1 := fun e => hct (e ▸ List.mem_map_of_mem Prod.fst hp)
        simpa using this
      simp [hnone, List.lookup_cons]

theorem lookup_jsSpreadSet_other (d : JRecord) (k v k' : String)
    (hne : k' ≠ k) :
    (jsSpreadSet d k v).lookup k' = d.lookup k' := by
  unfold jsSpreadSet
  split
  · exact lookup_map_replace_other d k v k' hne
  · rw [lookup_append_single]
    cases hl : d.lookup k' <;>
      simp [hl, List.lookup_cons, beq_false_of_ne hne]

/-! ## Claims -/

/-- C1 (corrected).  Connection coalescing lives in `ensureConnection` (the
path used by `emit`), not in the public `connect`: when a connection attempt
is pending (`connectionPromise` set) and the socket is not yet open, a
further `ensureConnection` call leaves the manager's state unchanged — in
particular no second physical WebSocket is constructed — and returns the
very same pending promise, so both callers resolve to the shared attempt's
outcome.  (A direct `connect()` call, by contrast, always opens a new
socket; see the counterexample.) -/
theorem claim_C1 (s : Pulse) (u : Option String) (p : Nat)
    (hp : s.connectionPromise = some p)
    (hws : s.ws.map WSocket.ready ≠ some WsReady.opened) :
    ensureConnection s u = (s, ConnOutcome.pending p) := by
  unfold ensureConnection
  rw [if_neg hws, hp]

theorem claim_C1_witness :
    ensureConnection ((ensureConnection (initPulse "c") (some "u")).1)
        (some "u") =
      ((ensureConnection (initPulse "c") (some "u")).1,
       ConnOutcome.pending 0) :=
  claim_C1 _ _ 0 (by decide) (by decide)

/-- C1 counterexample: the claim as stated fails for the public `connect`
method — after a first `connect` whose attempt is still pending (its socket
still in the connecting state), a second `connect` call constructs a second
physical WebSocket (`opened = 2`). -/
theorem claim_C1_cex :
    ((connect (initPulse "c") (some "u")).1).ws =
        some ⟨0, WsReady.connecting⟩ ∧
    ((connect (initPulse "c") (some "u")).1).connectionPromise = none ∧
    ((connect ((connect (initPulse "c") (some "u")).1) (some "u")).1).opened
        = 2 := by
  decide

/-- C2 (corrected).  An inbound envelope whose `sender_id` equals the
manager's own `clientID` is never delivered to any registered listener —
even one registered for that exact `event_type`, and whatever the handlers
do.  An envelope from any other sender is dispatched to every listener
registered for the matching `event_type` provided no invoked handler
throws; the unqualified delivery guarantee fails, because a throwing
handler aborts dispatch to the remaining matching listeners (see the
counterexample). -/
theorem claim_C2 (throws : Nat → Bool) (s : Pulse) (ev : String)
    (d : JRecord) (sid : String) :
    (sid = s.clientID → onmessage throws s ⟨ev, d, sid⟩ = ([], false)) ∧
    (sid ≠ s.clientID →
      (∀ l ∈ s.listeners, l.event = ev → throws l.fn = false) →
      onmessage throws s ⟨ev, d, sid⟩ =
        ((s.listeners.filter (fun l => l.event == ev)).map Listener.fn,
         false)) := by
  constructor
  · intro h
    simp [onmessage, h]
  · intro h hnt
    simp only [onmessage, h, if_false]
    exact forEachDispatch_no_throw throws ev s.listeners hnt

theorem claim_C2_witness :
    onmessage (fun _ => false)
        { initPulse "me" with
            listeners := [⟨"e", 0⟩, ⟨"f", 2⟩, ⟨"e", 1⟩] }
        ⟨"e", [], "me"⟩ = ([], false) ∧
    onmessage (fun _ => false)
        { initPulse "me" with
            listeners := [⟨"e", 0⟩, ⟨"f", 2⟩, ⟨"e", 1⟩] }
        ⟨"e", [], "peer"⟩ = ([0, 1], false) :=
  ⟨(claim_C2 (fun _ => false) _ "e" [] "me").1 rfl,
   (claim_C2 (fun _ => false) _ "e" [] "peer").2 (by decide) (by decide)⟩

/-- C2 counterexample: the unqualified half of the original claim —
"envelopes with any other sender_id are dispatched to every listener
registered for the matching event_type" — fails at a concrete input: with
listeners `⟨"x",5⟩, ⟨"x",7⟩` registered and handler `5` throwing, the
non-self envelope `⟨"x", [], "other"⟩` is never delivered to the matching
registered listener `⟨"x",7⟩`. -/
theorem claim_C2_cex :
    ("other" : String) ≠ "self" ∧
    Listener.mk "x" 7 ∈
      ({ initPulse "self" with
          listeners := [⟨"x", 5⟩, ⟨"x", 7⟩] } : Pulse).listeners ∧
    (7 : Nat) ∉
      (onmessage (fun fn => fn == 5)
          { initPulse "self" with listeners := [⟨"x", 5⟩, ⟨"x", 7⟩] }
          ⟨"x", [], "other"⟩).1 := by
  decide

/-- C3 (corrected).  An exception thrown by a handler is caught inside the
manager's message callback (it never propagates out: `onmessage` returns in
every case, recording that the error was logged), but it aborts the
`forEach` iteration: exactly the matching handlers up to and including the
first throwing one run, and the remaining matching handlers are skipped for
that envelope. -/
theorem claim_C3 (throws : Nat → Bool) (s : Pulse) (ev : String)
    (d : JRecord) (sid : String) (h : sid ≠ s.clientID) :
    onmessage throws s ⟨ev, d, sid⟩ =
      (((s.listeners.filter (fun l => l.event == ev)).map
          Listener.fn).takeWhile (fun f => !throws f) ++
        (((s.listeners.filter (fun l => l.event == ev)).map
            Listener.fn).dropWhile (fun f => !throws f)).take 1,
       ((s.listeners.filter (fun l => l.event == ev)).map
          Listener.fn).any throws) := by
  simp only [onmessage, h, if_false]
  exact forEachDispatch_spec throws ev s.listeners

theorem claim_C3_witness :
    onmessage (fun fn => fn == 0)
        { initPulse "me" with listeners := [⟨"e", 0⟩, ⟨"e", 1⟩] }
        ⟨"e", [], "peer"⟩ = ([0], true) :=
  claim_C3 (fun fn => fn == 0) _ "e" [] "peer" (by decide)

/-- C3 counterexample: with two listeners registered for `"e"` and the
first handler throwing, only handler `0` is invoked; handler `1`, although
registered for the envelope's exact event type, is never invoked for that
envelope — refuting "an exception thrown by one handler does not prevent
the remaining matching handlers from being invoked". -/
theorem claim_C3_cex :
    Listener.mk "e" 1 ∈
        ({ initPulse "me" with
            listeners := [⟨"e", 0⟩, ⟨"e", 1⟩] } : Pulse).listeners ∧
    (onmessage (fun fn => fn == 0)
        { initPulse "me" with listeners := [⟨"e", 0⟩, ⟨"e", 1⟩] }
        ⟨"e", [], "peer"⟩).1 = [0] ∧
    (1 : Nat) ∉
      (onmessage (fun fn => fn == 0)
          { initPulse "me" with listeners := [⟨"e", 0⟩, ⟨"e", 1⟩] }
          ⟨"e", [], "peer"⟩).1 := by
  decide

/-- C4 (corrected).  `emit` on a manager on which `connect` has never been
called does not fail fast: it implicitly starts a connection attempt with
no user identity (`userId` stays absent) and builds the outbound envelope
with the caller's data unmodified. -/
theorem claim_C4 (s : Pulse) (ev : String) (d : JRecord)
    (h1 : s.userId = none) (h2 : s.ws = none)
    (h3 : s.connectionPromise = none) :
    (emit s ev d).1.opened = s.opened + 1 ∧
    (emit s ev d).1.userId = none ∧
    (emit s ev d).1.ws = some ⟨s.nextSock, WsReady.connecting⟩ ∧
    (emit s ev d).2.1 = ConnOutcome.pending s.nextSock ∧
    (emit s ev d).2.2 = ⟨ev, d, s.clientID⟩ := by
  simp [emit, ensureConnection, connect, emitData, h1, h2, h3]

theorem claim_C4_witness :
    (emit (initPulse "c") "ping" [("foo", "bar")]).1.opened = 0 + 1 ∧
    (emit (initPulse "c") "ping" [("foo", "bar")]).1.userId = none ∧
    (emit (initPulse "c") "ping" [("foo", "bar")]).1.ws =
        some ⟨0, WsReady.connecting⟩ ∧
    (emit (initPulse "c") "ping" [("foo", "bar")]).2.1 =
        ConnOutcome.pending 0 ∧
    (emit (initPulse "c") "ping" [("foo", "bar")]).2.2 =
        ⟨"ping", [("foo", "bar")], "c"⟩ :=
  claim_C4 (initPulse "c") "ping" [("foo", "bar")] rfl rfl rfl

/-- C4 counterexample: `emit` on a freshly constructed manager (no
`connect` ever made) opens a physical connection attempt (`opened = 1`)
with no user identity instead of failing fast with a usage error. -/
theorem claim_C4_cex :
    (emit (initPulse "c") "ping" [("foo", "bar")]).1.opened = 1 ∧
    (emit (initPulse "c") "ping" [("foo", "bar")]).1.userId = none ∧
    (emit (initPulse "c") "ping" [("foo", "bar")]).2.2 =
      ⟨"ping", [("foo", "bar")], "c"⟩ := by
  decide

/-- C7 (corrected).  When a nonempty user id is stored, the outbound
envelope's data map holds it under `"userId"` and preserves every caller
entry at any other key; a caller-supplied `"userId"` entry, however, is
overwritten (object spread), so not literally *all* caller entries survive.
With no stored user id — and likewise with a stored *empty-string* user id,
which is falsy in the source's `this.userId ?` check — the data map is sent
unmodified. -/
theorem claim_C7 (s : Pulse) (ev : String) (d : JRecord) :
    (∀ u, s.userId = some u → u ≠ "" →
      ((emit s ev d).2.2.data.lookup "userId" = some u ∧
       ∀ k, k ≠ "userId" →
         (emit s ev d).2.2.data.lookup k = d.lookup k)) ∧
    (s.userId = none → (emit s ev d).2.2.data = d) ∧
    (s.userId = some "" → (emit s ev d).2.2.data = d) := by
  refine ⟨?_, ?_, ?_⟩
  · intro u hu hne
    rw [emit_envelope]
    simp only [hu, emitData, if_neg hne]
    exact ⟨lookup_jsSpreadSet_self d "userId" u,
      fun k hk => lookup_jsSpreadSet_other d "userId" u k hk⟩
  · intro hu
    rw [emit_envelope]
    simp [hu, emitData]
  · intro hu
    rw [emit_envelope]
    simp [hu, emitData]

theorem claim_C7_witness :
    ((emit { initPulse "c" with userId := some "u" } "ev"
        [("a", "1"), ("b", "2")]).2.2.data.lookup "userId" = some "u" ∧
     (emit { initPulse "c" with userId := some "u" } "ev"
        [("a", "1"), ("b", "2")]).2.2.data.lookup "a" =
       [("a", "1"), ("b", "2")].lookup "a") ∧
    (emit (initPulse "c") "ev" [("a", "1")]).2.2.data = [("a", "1")] ∧
    (emit { initPulse "c" with userId := some "" } "ev"
        [("a", "1")]).2.2.data = [("a", "1")] :=
  ⟨⟨((claim_C7 { initPulse "c" with userId := some "u" } "ev"
        [("a", "1"), ("b", "2")]).1 "u" rfl (by decide)).1,
    ((claim_C7 { initPulse "c" with userId := some "u" } "ev"
        [("a", "1"), ("b", "2")]).1 "u" rfl (by decide)).2 "a" (by decide)⟩,
   (claim_C7 (initPulse "c") "ev" [("a", "1")]).2.1 rfl,
   (claim_C7 { initPulse "c" with userId := some "" } "ev"
       [("a", "1")]).2.2 rfl⟩

/-- C7 counterexample: with stored user id `"u"`, emitting caller data that
itself has a `"userId"` entry (`[("userId", "x")]`) produces an envelope
whose data is `[("userId", "u")]`: the caller's entry `("userId", "x")` is
not contained in the sent map, refuting "in addition to all entries of the
caller-supplied data".  And with a stored *empty-string* user id (set via
`connect("")`), the envelope's data is sent unmodified — no `"userId"`
entry is added — refuting "the data map contains that stored user id under
the key userId" for the falsy empty id. -/
theorem claim_C7_cex :
    (emit { initPulse "c" with userId := some "u" } "ev"
        [("userId", "x")]).2.2.data = [("userId", "u")] ∧
    ("userId", "x") ∉
      (emit { initPulse "c" with userId := some "u" } "ev"
          [("userId", "x")]).2.2.data ∧
    (emit { initPulse "c" with userId := some "" } "ev"
        [("a", "1")]).2.2.data = [("a", "1")] ∧
    (emit { initPulse "c" with userId := some "" } "ev"
        [("a", "1")]).2.2.data.lookup "userId" = none := by
  decide

/-- C5 (corrected).  With a manager reference: the User service publishes
exactly one `user_create`/`user_update` with the entity and one
`user_delete` with `{id}`; the Message service publishes exactly one
`message_create`/`message_update` with the entity, but its delete publishes
one `message_delete` whose payload is `{id, channelId}` (not the bare
`{id}`); the Participant service publishes one
`participant_create`/`participant_update` with the submitted participant,
and a removal publishes one `participant_delete` with payload `{id}` per
removed id of the batch; the File service publishes `file_upload` — not
`file_create` — with the entity on upload, and one `file_delete` with
`{id}`; the Channel service holds no manager reference and publishes
nothing.  Without a manager reference publication is skipped silently
while the operation still returns its result. -/
theorem claim_C5 (cid mid : String) (args msg entity p : JRecord)
    (ids : List String) :
    (createUser true args entity).emits = [⟨"user_create", entity⟩] ∧
    (updateUser true mid args entity).emits = [⟨"user_update", entity⟩] ∧
    (deleteUser true mid).emits = [⟨"user_delete", [("id", mid)]⟩] ∧
    (createMessage true cid args entity).emits =
      [⟨"message_create", entity⟩] ∧
    (updateMessage true cid mid msg entity).emits =
      [⟨"message_update", entity⟩] ∧
    (addParticipant ⟨some cid, true⟩ p).map SvcOutcome.emits =
      Except.ok [⟨"participant_create", p⟩] ∧
    (updateParticipant ⟨some cid, true⟩ p).map SvcOutcome.emits =
      Except.ok [⟨"participant_update", p⟩] ∧
    (deleteMessage true cid mid).emits =
      [⟨"message_delete", [("id", mid), ("channelId", cid)]⟩] ∧
    (removeParticipant ⟨some cid, true⟩ ids).map SvcOutcome.emits =
      Except.ok (ids.map fun i => ⟨"participant_delete", [("id", i)]⟩) ∧
    (uploadFile true args entity).emits = [⟨"file_upload", entity⟩] ∧
    (deleteFile true mid).emits = [⟨"file_delete", [("id", mid)]⟩] ∧
    (createChannel args entity).emits = [] ∧
    (updateChannel cid args entity).emits = [] ∧
    (deleteChannel cid).emits = [] ∧
    (createUser false args entity).emits = [] ∧
    (createUser false args entity).result =
      (createUser true args entity).result ∧
    (deleteUser false mid).emits = [] ∧
    (createMessage false cid args entity).emits = [] ∧
    (createMessage false cid args entity).result =
      (createMessage true cid args entity).result ∧
    (deleteMessage false cid mid).emits = [] ∧
    (uploadFile false args entity).emits = [] ∧
    (uploadFile false args entity).result =
      (uploadFile true args entity).result ∧
    (deleteFile false mid).emits = [] ∧
    (addParticipant ⟨some cid, false⟩ p).map SvcOutcome.emits =
      Except.ok [] ∧
    (addParticipant ⟨some cid, false⟩ p).map SvcOutcome.http =
      (addParticipant ⟨some cid, true⟩ p).map SvcOutcome.http :=
  ⟨rfl, rfl, rfl, rfl, rfl, rfl, rfl, rfl, rfl, rfl, rfl, rfl, rfl, rfl,
   rfl, rfl, rfl, rfl, rfl, rfl, rfl, rfl, rfl, rfl, rfl⟩

/-- C5 counterexample: the message delete's published payload is not the
deletion marker `{id}` (it also carries `channelId`); one
`removeParticipant` call with a two-element batch publishes two
`participant_delete` events, not exactly one event per operation; and the
File service's successful upload publishes an event named `file_upload`,
not the claim's `file_create`. -/
theorem claim_C5_cex :
    (deleteMessage true "c1" "m1").emits.map EmitCall.payload ≠
      [[("id", "m1")]] ∧
    (removeParticipant ⟨some "c1", true⟩ ["p1", "p2"]).map
        (fun o => o.emits.length) = Except.ok 2 ∧
    (uploadFile true [] [("id", "f1")]).emits.map EmitCall.event =
      ["file_upload"] ∧
    ("file_upload" : String) ≠ "file_create" :=
  ⟨by decide, rfl, rfl, by decide⟩

/-- C10 (confirmed).  The `ParticipantService` nested inside a
`ChannelService` is constructed without the `pulse` argument, so
participant mutations through `channelService.participants` publish no
events, while the HTTP mutation is still issued and the call returns
successfully (once a channel is selected). -/
theorem claim_C10 (cid : String) (p : JRecord) (ids : List String) :
    mkChannelService.participants.hasPulse = false ∧
    (channelConnect mkChannelService cid).participants.hasPulse = false ∧
    addParticipant (channelConnect mkChannelService cid).participants p =
      Except.ok ⟨[⟨"POST", "/v1/project/channels/" ++ cid ++ "/participants",
                   p⟩], [], []⟩ ∧
    removeParticipant (channelConnect mkChannelService cid).participants
        ids =
      Except.ok ⟨[⟨"DELETE",
                   "/v1/project/channels/" ++ cid ++ "/participants",
                   ids.map (fun i => ("data", i))⟩], [], []⟩ ∧
    updateParticipant (channelConnect mkChannelService cid).participants p =
      Except.ok ⟨[⟨"PUT", "/v1/project/channels/" ++ cid ++ "/participants",
                   p⟩], [], []⟩ :=
  ⟨rfl, rfl, rfl, rfl, rfl⟩

/-- The token unfolded one step: signing input, dot, and the signature
segment produced by encoding `hmacSha256`'s (already base64url) output. -/
theorem generateToken_eq (secretID secretKey : JStr) (now : Nat)
    (expiry : Int) :
    generateToken secretID secretKey now expiry =
      signingInput secretID now expiry ++ [46] ++
        base64UrlEncode
          (hmacSha256 secretKey (signingInput secretID now expiry)) := rfl

/-- C6 (corrected).  The token is `header.payload.signature` with
base64url-encoded header and payload, but the signature segment is the
base64url encoding applied *twice* to the raw HMAC bytes: `hmacSha256`
already returns base64url text, and `generateToken` encodes that text once
more. -/
theorem claim_C6 (secretID secretKey : JStr) (now : Nat) (expiry : Int) :
    splitDots (generateToken secretID secretKey now expiry) =
      [encHeader, encPayload secretID now expiry,
       base64UrlEncode (base64UrlEncode
         (hmacSha256Raw secretKey (signingInput secretID now expiry)))] :=
  token_split secretID secretKey now expiry

/-- C6 counterexample: at a concrete identity/secret/timestamp/expiry the
produced token differs from the spec's formula (single base64url encoding
of the HMAC): the signature segments have lengths 60 and 44. -/
theorem claim_C6_cex :
    generateToken (codes "a") (codes "k") 0 30 ≠
      signSpecFormula (codes "a") (codes "k") 0 30 := by
  intro h
  have hlen := congrArg List.length h
  have h1 : (generateToken (codes "a") (codes "k") 0 30).length =
      (signingInput (codes "a") 0 30).length + 1 + 60 := by
    rw [generateToken_eq]
    simp [List.length_append, base64UrlEncode_length, hmacSha256_length]
  have h2 : (signSpecFormula (codes "a") (codes "k") 0 30).length =
      (signingInput (codes "a") 0 30).length + 1 + 44 := by
    unfold signSpecFormula
    simp [List.length_append, base64UrlEncode_length, hmacSha256Raw_length]
  omega

theorem hmacKeyBuffer_nul :
    hmacKeyBuffer (codes "k") = hmacKeyBuffer (codes "k" ++ [0]) := by
  decide

theorem hmac_nul (m : JStr) :
    hmacSha256 (codes "k") m = hmacSha256 (codes "k" ++ [0]) m := by
  simp only [hmacSha256, hmacSha256Raw]
  rw [hmacKeyBuffer_nul]

/-- C8 (corrected).  `sign` is deterministic — the embedding makes the
timestamp an explicit input, and the token is a pure function of identity,
secret, timestamp and expiry — and distinct identities are observed to
yield distinct tokens (witnessed at the repository test's identities
`secret1`/`secret2`, where the payload segments differ whatever the
secret).  Varying the secret, however, does *not* always change the
signature: see the counterexample. -/
theorem claim_C8 (secretID secretKey secretKey2 : JStr) (now : Nat)
    (expiry : Int) :
    generateToken secretID secretKey now expiry =
      generateToken secretID secretKey now expiry ∧
    generateToken (codes "secret1") secretKey2 0 30 ≠
      generateToken (codes "secret2") secretKey2 0 30 := by
  refine ⟨rfl, fun h => ?_⟩
  have hs := congrArg splitDots h
  rw [token_split, token_split] at hs
  simp only [List.cons.injEq] at hs
  exact absurd hs.2.1 (by decide)

/-- C8 counterexample: two different secrets — `"k"` and `"k"` followed by
a NUL code unit — produce identical tokens (identical signature segments),
because the HMAC key preparation zero-pads short keys; so varying the
secret does not always change the signature. -/
theorem claim_C8_cex :
    codes "k" ≠ codes "k" ++ [0] ∧
    generateToken (codes "a") (codes "k") 0 30 =
      generateToken (codes "a") (codes "k" ++ [0]) 0 30 := by
  refine ⟨by decide, ?_⟩
  rw [generateToken_eq, generateToken_eq, hmac_nul]

theorem b64url_allSafe (s : List Nat) :
    (base64UrlEncode s).all (fun c => c != 61 && c != 43 && c != 47) =
      true := by
  rw [List.all_eq_true]
  intro c hc
  have h := base64UrlEncode_urlSafe s c hc
  simp only [urlSafeB, Bool.and_eq_true] at h ⊢
  exact h.1

/-- C9 (confirmed).  For every identity, secret, timestamp and expiry the
token splits at the dots into exactly three segments, and no segment
contains any of the characters `'='` (61), `'+'` (43) or `'/'` (47). -/
theorem claim_C9 (secretID secretKey : JStr) (now : Nat) (expiry : Int) :
    (splitDots (generateToken secretID secretKey now expiry)).length = 3 ∧
    (splitDots (generateToken secretID secretKey now expiry)).all
      (fun seg => seg.all (fun c => c != 61 && c != 43 && c != 47)) =
      true := by
  rw [token_split]
  refine ⟨rfl, ?_⟩
  simp only [List.all_cons, List.all_nil, Bool.and_true, Bool.and_eq_true]
  exact ⟨b64url_allSafe jsonHeaderStr,
    b64url_allSafe (jsonPayloadStr secretID (now : Int) ((now : Int) + expiry)),
    b64url_allSafe _⟩

end StreamMint
